import Mathlib

/-!
Verification development for the Zalanko voice-shopping client.

The definitions below are a shallow embedding of the TypeScript frontend:
* `calculatePricing` from `src/app/frontend/src/utils/pricing.ts`;
* the shopping state hooks (`useShoppingFeatures`: cart, favorites, page)
  and the tool-response dispatcher (`useToolResponseHandler.ts`) with the
  wiring of the refactored `App` (`useProductManagement.updateListings`);
* the voice-interface handlers of `App.tsx` (`onReceivedResponseAudioDelta`,
  `onReceivedInputAudioBufferSpeechStarted`, `onToggleListening`);
* the virtual try-on generation handler `handleGenerateTryOn` of `App.tsx`.

JavaScript numbers appear only as opaque values here (they are selected and
compared, never computed with), so they are modelled as rationals.  A JS
value that may be `undefined`/`null` is modelled as an `Option`.
-/

namespace Zalanko

/-- Result of `calculatePricing` (interface `PricingInfo` in pricing.ts). -/
structure PricingInfo where
  currentPrice : ℚ
  hasDiscount : Bool
  originalPrice : Option ℚ
  deriving DecidableEq, Repr

/-- Embedding of `calculatePricing` (pricing.ts, lines 18-31):
`hasDiscount = onSale && salePrice != null`; `currentPrice` is the sale
price when discounted (the `salePrice!` assertion), else the price;
`originalPrice` is the price when discounted, else `undefined`. -/
def calculatePricing (price : ℚ) (salePrice : Option ℚ) (onSale : Bool) :
    PricingInfo :=
  let hasDiscount := onSale && salePrice.isSome
  { currentPrice := if hasDiscount then salePrice.getD price else price
    hasDiscount := hasDiscount
    originalPrice := if hasDiscount then some price else none }

/-- Embedding of `useShoppingFeatures.toggleFavorite`
(useToolResponseHandler.ts bundle, lines 142-152): if the id is in the
favorites list remove every equal entry (`filter`), otherwise append it. -/
def toggleFavorite (listingId : String) (favorites : List String) :
    List String :=
  if listingId ∈ favorites then
    favorites.filter (fun item => item != listingId)
  else
    favorites ++ [listingId]

/-- `ratings` field of a `Listing` (types.ts). -/
structure Ratings where
  average : Option ℚ
  count : Option ℚ
  deriving DecidableEq, Repr

/-- The `Listing` product record (types.ts). -/
structure Listing where
  id : String
  title : String
  description : String
  brand : String
  category : String
  price : ℚ
  sale_price : Option ℚ
  on_sale : Bool
  colors : List String
  sizes : List String
  materials : List String
  style_tags : List String
  ratings : Ratings
  images : List String
  imageUrls : Option (List String)
  availability : String
  deriving DecidableEq, Repr

/-- The parsed `tool_result` JSON payload as the dispatcher reads it: each
field the handler inspects, `none` when absent or (for the
`typeof x === "string"` guards) not a string.  `products` is `some` exactly
when the payload has a products array — in JavaScript an array, even empty,
is truthy. -/
structure ToolResult where
  products : Option (List Listing)
  id : Option String
  action : Option String
  listing_id : Option String := none
  contact : Option String := none
  message : Option String := none
  product_id : Option String := none
  navigate_to : Option String
  favorite_id : Option String
  image_url : Option String := none
  error : Option String := none
  deriving DecidableEq, Repr

/-- The active messaging contact set by the `send_message` action
(`setActiveContact` in App; the wall-clock `timestamp` is omitted). -/
structure Contact where
  listingId : Option String
  email : Option String
  initialMessage : Option String
  deriving DecidableEq, Repr

/-- Virtual try-on state slice (`useVirtualTryOn`): modal visibility, the
product being tried on, the generation flag, and the result's image URL
(the wall-clock `timestamp` of a result is omitted). -/
structure TryOnState where
  showModal : Bool
  product : Option Listing
  isGenerating : Bool
  result : Option String
  deriving DecidableEq, Repr

/-- The client-visible shared state the tool dispatcher can touch:
product listings and highlight (`useProductManagement`), cart, favorites
and page (`useShoppingFeatures`), active contact, and try-on state.
The cart holds `Option String` because the JS `add_to_cart` case passes
`result.product_id` through unchecked, so `undefined` can be inserted.
The page is a `String`: the `navigate_to` branch casts an arbitrary string
into the page union type. -/
structure ClientState where
  listings : List Listing
  highlighted : Option String
  cart : List (Option String)
  favorites : List String
  page : String
  activeContact : Option Contact
  tryOn : TryOnState
  deriving DecidableEq, Repr

/-- Embedding of `useProductManagement.updateListings` (hooks bundle): set
the listings only when they differ (`lodash.isequal` = structural
equality), and highlight the first product, or clear the highlight when
the new list is empty. -/
def updateListings (newListings : List Listing) (s : ClientState) :
    ClientState :=
  if s.listings = newListings then s
  else
    { s with
      listings := newListings
      highlighted := match newListings with
        | [] => none
        | l :: _ => some l.id }

/-- Cart update of `useShoppingFeatures.handleAddToCart`: append the id
unless it is already present (`cartItems.includes`). -/
def addToCartList (pid : Option String) (cart : List (Option String)) :
    List (Option String) :=
  if pid ∈ cart then cart else cart ++ [pid]

/-- Embedding of `useShoppingFeatures.handleAddToCart` acting on the
client state. -/
def handleAddToCart (pid : Option String) (s : ClientState) : ClientState :=
  { s with cart := addToCartList pid s.cart }

/-- JS truthiness of an optional string: `undefined`, `null` and `""` are
falsy, every other string is truthy. -/
def strTruthy : Option String → Bool
  | none => false
  | some s => !(s == "")

/-- Embedding of `useVirtualTryOn.handleTryOnRequest`: look the product up
in the current listings; when found, open the modal on it and clear any
previous result. -/
def handleTryOnRequest (pid : Option String) (listings : List Listing)
    (t : TryOnState) : TryOnState :=
  match listings.find? (fun l => pid == some l.id) with
  | some p => { t with product := some p, showModal := true, result := none }
  | none => t

/-- Embedding of `useVirtualTryOn.handleVoiceTryOnModal`: identical state
effect to `handleTryOnRequest` (the source duplicates the body). -/
def handleVoiceTryOnModal (pid : Option String) (listings : List Listing)
    (t : TryOnState) : TryOnState :=
  match listings.find? (fun l => pid == some l.id) with
  | some p => { t with product := some p, showModal := true, result := none }
  | none => t

/-- Embedding of `useVirtualTryOn.handleTryOnResult`: stop the generating
flag; store the image URL when the result carries a truthy one. -/
def handleTryOnResult (r : ToolResult) (t : TryOnState) : TryOnState :=
  let t' := { t with isGenerating := false }
  if strTruthy r.image_url then { t' with result := r.image_url } else t'

/-- Embedding of `useVirtualTryOn.handleTryOnError`: only stops the
generating flag (the error is logged, not stored). -/
def handleTryOnError (t : TryOnState) : TryOnState :=
  { t with isGenerating := false }

/-- The `switch (result.action)` of `useToolResponseHandler.handleToolResponse`
(a JS switch over string cases, rendered as an if-chain; an absent or
unmatched action falls to the logging default, which changes nothing). -/
def applyAction (r : ToolResult) (s : ClientState) : ClientState :=
  match r.action with
  | none => s
  | some a =>
    if a = "update_preferences" then s
    else if a = "send_message" then
      { s with
        activeContact := some
          { listingId := r.listing_id
            email := r.contact
            initialMessage := r.message }
        page := "messages" }
    else if a = "add_to_cart" then handleAddToCart r.product_id s
    else if a = "virtual_try_on_request" then
      { s with tryOn := handleTryOnRequest r.product_id s.listings s.tryOn }
    else if a = "open_virtual_try_on_modal" then
      { s with tryOn := handleVoiceTryOnModal r.product_id s.listings s.tryOn }
    else if a = "virtual_try_on_result" then
      { s with tryOn := handleTryOnResult r s.tryOn }
    else if a = "virtual_try_on_error" then
      { s with tryOn := handleTryOnError s.tryOn }
    else s

/-- The trailing `navigate_to` check of `handleToolResponse`: a string
value is cast into the page type and stored. -/
def applyNavigate (r : ToolResult) (s : ClientState) : ClientState :=
  match r.navigate_to with
  | some d => { s with page := d }
  | none => s

/-- The trailing `favorite_id` check of `handleToolResponse`. -/
def applyFavorite (r : ToolResult) (s : ClientState) : ClientState :=
  match r.favorite_id with
  | some f => { s with favorites := toggleFavorite f s.favorites }
  | none => s

/-- Events the voice interface of `App.tsx` reacts to: an upstream
`response.audio.delta` frame, the upstream `input_audio_buffer.speech_started`
notification, a chunk produced by the audio recorder (wired to
`addUserAudio`), and the user pressing the listen toggle. -/
inductive ClientEvent where
  | audioDelta (delta : String)
  | speechStarted
  | audioRecorded (chunk : String)
  | toggleListening
  deriving DecidableEq, Repr

/-- The observable calls the `App.tsx` handlers make.  `sendAppend` and
`sendClear` stand for `addUserAudio` and `inputAudioBufferClear`, whose
bodies live in the `useRealtime` hook.  Modelled from the spec: the
client channel's inbound frame kinds are `input_audio_buffer.append` and
`input_audio_buffer.clear` (spec §6, and the command types in types.ts);
the hook's send functions emit exactly those frames upstream. -/
inductive VoiceAction where
  | playAudio (delta : String)
  | stopPlayer
  | resetPlayer
  | startSession
  | startRecording
  | stopRecording
  | sendAppend (chunk : String)
  | sendClear
  deriving DecidableEq, Repr

/-- A frame sent upstream by the client. -/
inductive UpFrame where
  | append (chunk : String)
  | clear
  deriving DecidableEq, Repr

/-- One step of the `App.tsx` voice handlers, on the only piece of state
they consult (`isRecording`), returning the new state and the calls made:
* `onReceivedResponseAudioDelta`: `isRecording && playAudio(message.delta)`;
* `onReceivedInputAudioBufferSpeechStarted`: `stopAudioPlayer()` only;
* the recorder callback: `addUserAudio` on each chunk;
* `onToggleListening`: start branch runs `startSession`,
  `startAudioRecording`, `resetAudioPlayer` and sets `isRecording` true;
  stop branch runs `stopAudioRecording`, `stopAudioPlayer`,
  `inputAudioBufferClear` and sets `isRecording` false. -/
def stepVoice (isRecording : Bool) :
    ClientEvent → Bool × List VoiceAction
  | .audioDelta d =>
      (isRecording, if isRecording then [.playAudio d] else [])
  | .speechStarted => (isRecording, [.stopPlayer])
  | .audioRecorded c => (isRecording, [.sendAppend c])
  | .toggleListening =>
      if isRecording then (false, [.stopRecording, .stopPlayer, .sendClear])
      else (true, [.startSession, .startRecording, .resetPlayer])

/-- Run the voice handlers over a sequence of events, collecting the calls
in order. -/
def runVoice (isRecording : Bool) :
    List ClientEvent → Bool × List VoiceAction
  | [] => (isRecording, [])
  | e :: es =>
      let (r1, acts) := stepVoice isRecording e
      let (r2, rest) := runVoice r1 es
      (r2, acts ++ rest)

/-- The audio deltas forwarded to the audio player's `play` — the deltas
that reach playback. -/
def playedDeltas (acts : List VoiceAction) : List String :=
  acts.filterMap fun a =>
    match a with
    | .playAudio d => some d
    | _ => none

/-- The frames the client sends upstream, in order. -/
def upstreamFrames (acts : List VoiceAction) : List UpFrame :=
  acts.filterMap fun a =>
    match a with
    | .sendAppend c => some (UpFrame.append c)
    | .sendClear => some UpFrame.clear
    | _ => none

/-- Outcome of the `fetch` to the virtual try-on backend as
`App.tsx`.`handleGenerateTryOn` observes it: an OK response with an
optional `image_url` field, a non-OK HTTP status (rethrown into the inner
catch), or a rejected fetch. -/
inductive TryOnFetchOutcome where
  | ok (imageUrl : Option String)
  | httpError (status : Nat)
  | networkFailure
  deriving DecidableEq, Repr

/-- URL completion in the OK branch of `handleGenerateTryOn`: a relative
`image_url` is prefixed with the backend origin. -/
def fullImageUrl (u : String) : String :=
  if u.startsWith "http" then u else "http://localhost:8765" ++ u

/-- Embedding of `App.tsx`.`handleGenerateTryOn` (lines 176-262) as a
function of the fetch outcome: set the generating flag; on OK store the
completed image URL when one is present (and do nothing, silently, when
none is); on any fetch failure fall back to the simulation, which after a
delay stores the placeholder image `/api/placeholder/400/600` as the
try-on result; the `finally` clause clears the generating flag.  No
branch records an error anywhere in the state. -/
def handleGenerateTryOn (outcome : TryOnFetchOutcome) (t : TryOnState) :
    TryOnState :=
  let t1 := { t with isGenerating := true }
  let t2 :=
    match outcome with
    | .ok u =>
        if strTruthy u then { t1 with result := some (fullImageUrl (u.getD "")) }
        else t1
    | .httpError _ => { t1 with result := some "/api/placeholder/400/600" }
    | .networkFailure => { t1 with result := some "/api/placeholder/400/600" }
  { t2 with isGenerating := false }

/-- Embedding of `useToolResponseHandler.handleToolResponse` with the
wiring of the refactored App (`setListings = updateListings`,
`setHighlightedListingId = highlightProduct`): a products array wins and
returns early; then a string `id` highlights and returns early; otherwise
the action switch runs, followed by the `navigate_to` and `favorite_id`
checks. -/
def handleToolResponse (r : ToolResult) (s : ClientState) : ClientState :=
  if r.products.isSome then updateListings (r.products.getD []) s
  else if r.id.isSome then { s with highlighted := r.id }
  else applyFavorite r (applyNavigate r (applyAction r s))

end Zalanko

namespace Zalanko

/-- C8: `calculatePricing` returns the sale price exactly when on sale with a
present sale price, the base price otherwise; `hasDiscount` marks that case;
`originalPrice` is the base price exactly when discounted. -/
theorem calculatePricing_spec (price : ℚ) (salePrice : Option ℚ)
    (onSale : Bool) :
    (∀ v, salePrice = some v → onSale = true →
      (calculatePricing price salePrice onSale).currentPrice = v ∧
      (calculatePricing price salePrice onSale).hasDiscount = true ∧
      (calculatePricing price salePrice onSale).originalPrice = some price) ∧
    (onSale = false →
      (calculatePricing price salePrice onSale).currentPrice = price ∧
      (calculatePricing price salePrice onSale).hasDiscount = false ∧
      (calculatePricing price salePrice onSale).originalPrice = none) ∧
    (salePrice = none →
      (calculatePricing price salePrice onSale).currentPrice = price ∧
      (calculatePricing price salePrice onSale).hasDiscount = false ∧
      (calculatePricing price salePrice onSale).originalPrice = none) := by
  refine ⟨?_, ?_, ?_⟩
  · rintro v rfl rfl
    simp [calculatePricing]
  · rintro rfl
    simp [calculatePricing]
  · rintro rfl
    simp [calculatePricing]

/-- Witness for C8 at concrete inputs: a 10-priced item on sale at 7. -/
theorem calculatePricing_spec_witness :
    (calculatePricing 10 (some 7) true).currentPrice = 7 ∧
    (calculatePricing 10 (some 7) true).hasDiscount = true ∧
    (calculatePricing 10 (some 7) true).originalPrice = some 10 :=
  (calculatePricing_spec 10 (some 7) true).1 7 rfl rfl

/-- Filtering out an id that is not in the list leaves the list unchanged. -/
theorem filter_ne_of_not_mem (id : String) (l : List String)
    (h : id ∉ l) : l.filter (fun x => x != id) = l := by
  refine List.filter_eq_self.mpr ?_
  intro a ha
  simp only [bne_iff_ne, ne_eq, decide_eq_true_eq]
  exact fun hai => h (hai ▸ ha)

/-- C10 counterexample: toggling the favorite "a" twice on the list
["a", "b"] yields ["b", "a"], not the original list ["a", "b"] — the
removed id is re-appended at the end, not restored to its position. -/
theorem toggleFavorite_twice_counterexample :
    toggleFavorite "a" (toggleFavorite "a" ["a", "b"]) = ["b", "a"] ∧
    toggleFavorite "a" (toggleFavorite "a" ["a", "b"]) ≠ ["a", "b"] := by
  constructor <;> decide

/-- C10 (amended): toggling a favorite id twice restores the original
membership (and the exact original list whenever the id was absent); a
single toggle changes exactly the membership of that id — every occurrence
is removed if present, the id is appended if absent — leaving all other
entries unchanged in order. -/
theorem toggleFavorite_amended (id : String) (favs : List String) :
    (∀ x, x ∈ toggleFavorite id (toggleFavorite id favs) ↔ x ∈ favs) ∧
    (id ∉ favs → toggleFavorite id (toggleFavorite id favs) = favs) ∧
    (id ∈ toggleFavorite id favs ↔ id ∉ favs) ∧
    (∀ x, x ≠ id → (x ∈ toggleFavorite id favs ↔ x ∈ favs)) ∧
    ((toggleFavorite id favs).filter (fun x => x != id) =
      favs.filter (fun x => x != id)) := by
  by_cases h : id ∈ favs
  · have hno : id ∉ favs.filter (fun item => item != id) := by
      simp [List.mem_filter]
    have h1 : toggleFavorite id favs = favs.filter (fun item => item != id) := by
      rw [toggleFavorite, if_pos h]
    have h2 : toggleFavorite id (favs.filter (fun item => item != id)) =
        favs.filter (fun item => item != id) ++ [id] := by
      rw [toggleFavorite, if_neg hno]
    refine ⟨?_, fun hc => absurd h hc, ?_, ?_, ?_⟩
    · intro x
      rw [h1, h2]
      simp only [List.mem_append, List.mem_filter, List.mem_singleton,
        bne_iff_ne, ne_eq, decide_eq_true_eq]
      constructor
      · rintro (⟨hx, _⟩ | rfl)
        · exact hx
        · exact h
      · intro hx
        by_cases hxi : x = id
        · exact Or.inr hxi
        · exact Or.inl ⟨hx, hxi⟩
    · rw [h1]
      simp [hno, h]
    · intro x hx
      rw [h1]
      simp [List.mem_filter, hx]
    · rw [h1]
      simp
  · have hmem : id ∈ favs ++ [id] := by simp
    have h1 : toggleFavorite id favs = favs ++ [id] := by
      rw [toggleFavorite, if_neg h]
    have h2 : toggleFavorite id (favs ++ [id]) = favs := by
      rw [toggleFavorite, if_pos hmem, List.filter_append,
        filter_ne_of_not_mem id favs h]
      simp
    refine ⟨?_, fun _ => by rw [h1, h2], ?_, ?_, ?_⟩
    · intro x
      rw [h1, h2]
    · rw [h1]
      simp [h]
    · intro x hx
      rw [h1]
      simp [hx]
    · rw [h1, List.filter_append, filter_ne_of_not_mem id favs h]
      simp

/-- Witness for C10 (amended) at a concrete input: toggling "a" twice on
["b"] restores ["b"], and a single toggle adds the absent id "a". -/
theorem toggleFavorite_amended_witness :
    toggleFavorite "a" (toggleFavorite "a" ["b"]) = ["b"] ∧
    ("a" ∈ toggleFavorite "a" ["b"] ↔ "a" ∉ (["b"] : List String)) :=
  ⟨(toggleFavorite_amended "a" ["b"]).2.1 (by decide),
   (toggleFavorite_amended "a" ["b"]).2.2.1⟩

/-! ### Component lemmas for the tool-response dispatcher -/

theorem updateListings_cart (ps : List Listing) (s : ClientState) :
    (updateListings ps s).cart = s.cart := by
  unfold updateListings
  split <;> rfl

theorem updateListings_favorites (ps : List Listing) (s : ClientState) :
    (updateListings ps s).favorites = s.favorites := by
  unfold updateListings
  split <;> rfl

theorem updateListings_page (ps : List Listing) (s : ClientState) :
    (updateListings ps s).page = s.page := by
  unfold updateListings
  split <;> rfl

theorem updateListings_activeContact (ps : List Listing) (s : ClientState) :
    (updateListings ps s).activeContact = s.activeContact := by
  unfold updateListings
  split <;> rfl

theorem updateListings_tryOn (ps : List Listing) (s : ClientState) :
    (updateListings ps s).tryOn = s.tryOn := by
  unfold updateListings
  split <;> rfl

theorem updateListings_listings (ps : List Listing) (s : ClientState) :
    (updateListings ps s).listings = ps := by
  unfold updateListings
  split
  · next heq => exact heq
  · rfl

theorem applyNavigate_cart (r : ToolResult) (s : ClientState) :
    (applyNavigate r s).cart = s.cart := by
  unfold applyNavigate
  split <;> rfl

theorem applyFavorite_cart (r : ToolResult) (s : ClientState) :
    (applyFavorite r s).cart = s.cart := by
  unfold applyFavorite
  split <;> rfl

theorem applyAction_cart (r : ToolResult) (s : ClientState) :
    (applyAction r s).cart =
      if r.action = some "add_to_cart" then addToCartList r.product_id s.cart
      else s.cart := by
  unfold applyAction
  rcases hact : r.action with _ | a
  · simp [hact]
  · simp only [hact]
    split_ifs with h1 h2 h3 h4 h5 h6 h7 <;>
      simp_all [handleAddToCart]

theorem addToCartList_idem (pid : Option String)
    (c : List (Option String)) :
    addToCartList pid (addToCartList pid c) = addToCartList pid c := by
  unfold addToCartList
  by_cases h : pid ∈ c
  · simp [h]
  · have hmem : pid ∈ c ++ [pid] := by simp
    simp [h, hmem]

/-- The cart after one delivery of a tool result, as a function of the
result alone: only the `add_to_cart` action can touch it. -/
theorem handleToolResponse_cart (r : ToolResult) (s : ClientState)
    (hp : r.products.isSome = false) (hi : r.id.isSome = false) :
    (handleToolResponse r s).cart =
      if r.action = some "add_to_cart" then addToCartList r.product_id s.cart
      else s.cart := by
  rw [handleToolResponse, if_neg (by simp [hp]), if_neg (by simp [hi])]
  rw [applyFavorite_cart, applyNavigate_cart, applyAction_cart]

/-- C5: delivering the same tool result twice never grows the cart twice —
the cart after two deliveries equals the cart after one (for the
`add_to_cart` action the second insert is rejected by the membership
guard; no other branch touches the cart). -/
theorem handleToolResponse_cart_idem (r : ToolResult) (s : ClientState) :
    (handleToolResponse r (handleToolResponse r s)).cart =
      (handleToolResponse r s).cart := by
  by_cases hp : r.products.isSome
  · rw [handleToolResponse, if_pos hp]
    exact updateListings_cart _ _
  · by_cases hi : r.id.isSome
    · rw [handleToolResponse, if_neg hp, if_pos hi]
    · rw [handleToolResponse_cart r _ (by simpa using hp) (by simpa using hi),
        handleToolResponse_cart r s (by simpa using hp) (by simpa using hi)]
      by_cases ha : r.action = some "add_to_cart"
      · simp [ha, addToCartList_idem]
      · simp [ha]

/-- C3: a tool response whose payload carries a products array replaces the
listing state with exactly that product list (the `isEqual` guard in
`updateListings` only skips the state write when the lists are already
identical). -/
theorem handleToolResponse_products_listings (r : ToolResult)
    (s : ClientState) (ps : List Listing) (h : r.products = some ps) :
    (handleToolResponse r s).listings = ps := by
  have hs : r.products.isSome := by rw [h]; rfl
  rw [handleToolResponse, if_pos hs, h]
  exact updateListings_listings _ _

/-- C9: a tool result carrying a products array updates listings and
returns early, so the cart, favorites, page, active contact and try-on
state are untouched even when the same result also carries `id`,
`action`, `navigate_to` or `favorite_id` fields. -/
theorem handleToolResponse_products_early_return (r : ToolResult)
    (s : ClientState) (ps : List Listing) (h : r.products = some ps) :
    (handleToolResponse r s).cart = s.cart ∧
    (handleToolResponse r s).favorites = s.favorites ∧
    (handleToolResponse r s).page = s.page ∧
    (handleToolResponse r s).activeContact = s.activeContact ∧
    (handleToolResponse r s).tryOn = s.tryOn := by
  have hs : r.products.isSome := by rw [h]; rfl
  rw [handleToolResponse, if_pos hs, h]
  exact ⟨updateListings_cart _ _, updateListings_favorites _ _,
    updateListings_page _ _, updateListings_activeContact _ _,
    updateListings_tryOn _ _⟩

/-- The seven action strings the dispatcher's switch recognizes. -/
def recognizedActions : List String :=
  ["update_preferences", "send_message", "add_to_cart",
   "virtual_try_on_request", "open_virtual_try_on_modal",
   "virtual_try_on_result", "virtual_try_on_error"]

/-- C6: a parsed tool result with no products array, no string id, no
recognized action, no string `navigate_to` and no string `favorite_id`
falls through every branch to the logging default: the whole client state
is unchanged (and the handler is a total function — the session does not
fail). -/
theorem handleToolResponse_unrecognized (r : ToolResult) (s : ClientState)
    (hp : r.products = none) (hi : r.id = none)
    (hn : r.navigate_to = none) (hf : r.favorite_id = none)
    (ha : ∀ a, r.action = some a → a ∉ recognizedActions) :
    handleToolResponse r s = s := by
  have h1 : applyAction r s = s := by
    unfold applyAction
    rcases hact : r.action with _ | a
    · rfl
    · have hmem := ha a hact
      simp only [recognizedActions, List.mem_cons, List.not_mem_nil,
        not_or, or_false] at hmem
      obtain ⟨n1, n2, n3, n4, n5, n6, n7⟩ := hmem
      simp [n1, n2, n3, n4, n5, n6, n7]
  have h2 : applyNavigate r s = s := by
    unfold applyNavigate
    rw [hn]
  have h3 : applyFavorite r s = s := by
    unfold applyFavorite
    rw [hf]
  rw [handleToolResponse, if_neg (by simp [hp]), if_neg (by simp [hi]),
    h1, h2, h3]

/-! ### Concrete fixtures used by the witnesses -/

/-- A concrete product record. -/
def sampleListing1 : Listing :=
  { id := "CLO001", title := "Essential Cotton T-Shirt"
    description := "Soft organic cotton t-shirt", brand := "Zara"
    category := "T-Shirts & Tops", price := 1999/100, sale_price := none
    on_sale := false, colors := ["white", "black"], sizes := ["M", "L"]
    materials := ["100% Organic Cotton"], style_tags := ["casual"]
    ratings := { average := some (43/10), count := some 892 }
    images := ["CLO001.png"], imageUrls := none
    availability := "in_stock" }

/-- A second concrete product record. -/
def sampleListing2 : Listing :=
  { id := "CLO002", title := "Premium Wool Blend Coat"
    description := "Luxurious wool blend coat", brand := "Hugo Boss"
    category := "Outerwear", price := 29999/100
    sale_price := some (21999/100), on_sale := true
    colors := ["black", "camel"], sizes := ["36", "38"]
    materials := ["70% Wool"], style_tags := ["elegant"]
    ratings := { average := some (47/10), count := some 234 }
    images := ["CLO002.png"], imageUrls := none
    availability := "in_stock" }

/-- The client state at session start. -/
def initialState : ClientState :=
  { listings := [], highlighted := none, cart := [], favorites := []
    page := "main", activeContact := none
    tryOn := { showModal := false, product := none, isGenerating := false
               result := none } }

/-- A search tool result carrying two product records. -/
def searchResult : ToolResult :=
  { products := some [sampleListing1, sampleListing2], id := none
    action := none, navigate_to := none, favorite_id := none }

/-- Witness for C3: a search returning 2 records yields a listing state of
exactly those 2 records. -/
theorem handleToolResponse_products_listings_witness :
    (handleToolResponse searchResult initialState).listings =
      [sampleListing1, sampleListing2] :=
  handleToolResponse_products_listings searchResult initialState
    [sampleListing1, sampleListing2] rfl

/-- A tool result that carries a products array together with `id`,
`action`, `navigate_to` and `favorite_id` fields, all of which the early
return must ignore. -/
def overloadedResult : ToolResult :=
  { products := some [sampleListing1], id := some "CLO002"
    action := some "add_to_cart", product_id := some "CLO001"
    navigate_to := some "cart", favorite_id := some "CLO001" }

/-- Witness for C9: the products early-return leaves cart, favorites,
page, active contact and try-on untouched even though the same result
also has `id`, `action`, `navigate_to` and `favorite_id` fields. -/
theorem handleToolResponse_products_early_return_witness :
    (handleToolResponse overloadedResult initialState).cart =
      initialState.cart ∧
    (handleToolResponse overloadedResult initialState).favorites =
      initialState.favorites ∧
    (handleToolResponse overloadedResult initialState).page =
      initialState.page ∧
    (handleToolResponse overloadedResult initialState).activeContact =
      initialState.activeContact ∧
    (handleToolResponse overloadedResult initialState).tryOn =
      initialState.tryOn :=
  handleToolResponse_products_early_return overloadedResult initialState
    [sampleListing1] rfl

/-- A tool result with an unrecognized action and no other handled field. -/
def unknownResult : ToolResult :=
  { products := none, id := none, action := some "reticulate_splines"
    navigate_to := none, favorite_id := none }

/-- Witness for C6: an unrecognized tool result leaves the whole client
state unchanged. -/
theorem handleToolResponse_unrecognized_witness :
    handleToolResponse unknownResult initialState = initialState :=
  handleToolResponse_unrecognized unknownResult initialState rfl rfl rfl rfl
    (by
      intro a h
      simp only [unknownResult, Option.some.injEq] at h
      subst h
      decide)

/-- C1 counterexample: on the received frame sequence
[audio-delta d1, audio-delta d2, user-speech-started, audio-delta d3]
during an active recording session, the client forwards all THREE deltas
to playback — the delta arriving after user-speech-started is played too,
so the played sequence is not just the first two. -/
theorem interruptOrdering_counterexample :
    playedDeltas (runVoice true [ClientEvent.audioDelta "d1",
      ClientEvent.audioDelta "d2", ClientEvent.speechStarted,
      ClientEvent.audioDelta "d3"]).2 = ["d1", "d2", "d3"] ∧
    playedDeltas (runVoice true [ClientEvent.audioDelta "d1",
      ClientEvent.audioDelta "d2", ClientEvent.speechStarted,
      ClientEvent.audioDelta "d3"]).2 ≠ ["d1", "d2"] := by
  constructor <;> decide

/-- C1 (amended): every audio delta received while `isRecording` is
forwarded to playback, including one arriving after user-speech-started;
the speech-started event only stops the player at its position in the
sequence, it does not suppress later deltas. -/
theorem audioDelta_playback_amended (d1 d2 d3 : String) :
    (runVoice true [ClientEvent.audioDelta d1, ClientEvent.audioDelta d2,
      ClientEvent.speechStarted, ClientEvent.audioDelta d3]).2 =
    [VoiceAction.playAudio d1, VoiceAction.playAudio d2,
      VoiceAction.stopPlayer, VoiceAction.playAudio d3] := rfl

/-- C2 counterexample: after a user-speech-started event during recording,
the next recorded audio chunk goes upstream as an append frame with NO
input-buffer-clear frame sent in between — indeed no clear frame is sent
at all on this sequence. -/
theorem speechStarted_noClear_counterexample :
    upstreamFrames (runVoice true [ClientEvent.speechStarted,
      ClientEvent.audioRecorded "c"]).2 = [UpFrame.append "c"] ∧
    UpFrame.clear ∉ upstreamFrames (runVoice true [ClientEvent.speechStarted,
      ClientEvent.audioRecorded "c"]).2 := by
  constructor <;> decide

/-- C2 (amended): the client sends `input_audio_buffer.clear` upstream
exactly when the listen toggle is pressed while recording (the stop
branch of `onToggleListening`); the user-speech-started handler sends
nothing upstream at all. -/
theorem inputBufferClear_amended :
    (∀ (rec : Bool) (e : ClientEvent),
      VoiceAction.sendClear ∈ (stepVoice rec e).2 ↔
        (e = ClientEvent.toggleListening ∧ rec = true)) ∧
    (∀ rec : Bool,
      upstreamFrames (stepVoice rec ClientEvent.speechStarted).2 = []) := by
  constructor
  · intro rec e
    cases e <;> cases rec <;> simp [stepVoice]
  · intro rec
    cases rec <;> rfl

/-- Witness for C2 (amended): toggling while recording does send the
clear frame. -/
theorem inputBufferClear_amended_witness :
    VoiceAction.sendClear ∈ (stepVoice true ClientEvent.toggleListening).2 :=
  (inputBufferClear_amended.1 true ClientEvent.toggleListening).mpr ⟨rfl, rfl⟩

/-- C7: toggling the listen control while recording stops the recorder,
stops the audio player, sends `input_audio_buffer.clear` upstream, and
returns the session to the idle (not-recording) state. -/
theorem toggleListening_stopsAndClears :
    stepVoice true ClientEvent.toggleListening =
      (false, [VoiceAction.stopRecording, VoiceAction.stopPlayer,
        VoiceAction.sendClear]) := rfl

/-- C4 (code evaluated at the failing input): when the try-on backend call
fails — a non-OK HTTP status or a rejected fetch — `handleGenerateTryOn`
stores the placeholder image `/api/placeholder/400/600` as the try-on
result, success-shaped, and records no error anywhere in the state. -/
theorem tryOnFailure_placeholder (t : TryOnState) (status : Nat) :
    handleGenerateTryOn (TryOnFetchOutcome.httpError status) t =
      { t with isGenerating := false
               result := some "/api/placeholder/400/600" } ∧
    handleGenerateTryOn TryOnFetchOutcome.networkFailure t =
      { t with isGenerating := false
               result := some "/api/placeholder/400/600" } := by
  constructor <;> rfl

end Zalanko
